import Mathlib

/-!
Verification development for the mock IMDS server (`test-mock-server-imds.py`).

The program is a single-endpoint HTTP server: `MockIMDSHandler.do_GET`
answers the exact path `/latest/meta-data/rebalance-recommendation` with a
JSON object `{"noticeTime": (utcnow() + 2 minutes).isoformat() + "Z"}` and
every other path with an empty 404; the main block binds `localhost:8080`,
prints three startup lines, serves forever, and on `KeyboardInterrupt`
shuts the listener down and falls off the end of the script.

The embedding below models:
 - `DateTime`: the field representation of a naive Python `datetime`,
   with CPython's proleptic-Gregorian ordinal arithmetic
   (`_days_before_year`, `_days_before_month`, `_ymd2ord`) as `toInstant`;
 - `addTwoMinutes`: the effect of `+ timedelta(minutes=2)` on a valid
   datetime (Python normalizes through the ordinal; adding exactly 120
   seconds is the unique valid datetime 120 s later, realized here by a
   field carry);
 - `isoformat`: `datetime.isoformat()`, which prints the six-digit
   microsecond field only when `microsecond` is nonzero;
 - `Json` / `Json.dumps`: the subset of `json.dumps` output format in play
   (default separators, `ensure_ascii` escaping on the Basic Multilingual
   Plane);
 - `do_GET`: the request handler as a pure function of the request target
   (`self.path`, the full origin-form target including any query string)
   and the current clock reading, together with the suppressed access log;
 - `mainRun`: the process lifecycle of the `__main__` block.  The numeric
   exit statuses (0 for falling off the end of the script, nonzero for an
   uncaught bind exception) follow the Python runtime.
-/

namespace MockIMDS

/-- A proleptic-Gregorian timestamp: the fields of a naive Python
`datetime.datetime`.  CPython restricts `year` to `1..9999`; validity is
captured by `Valid` below. -/
structure DateTime where
  year : Nat
  month : Nat
  day : Nat
  hour : Nat
  minute : Nat
  second : Nat
  microsecond : Nat
  deriving DecidableEq

/-- Python `datetime._is_leap`: `year % 4 == 0 and (year % 100 != 0 or year % 400 == 0)`. -/
def isLeap (y : Nat) : Prop := y % 4 = 0 ∧ (y % 100 ≠ 0 ∨ y % 400 = 0)

instance (y : Nat) : Decidable (isLeap y) := by
  unfold isLeap
  exact inferInstance

/-- Python `datetime._days_in_month` (via the `_DAYS_IN_MONTH` table). -/
def daysInMonth (y m : Nat) : Nat :=
  if m = 2 then (if isLeap y then 29 else 28)
  else if m = 4 ∨ m = 6 ∨ m = 9 ∨ m = 11 then 30
  else 31

/-- Python `datetime._days_before_year`: days before January 1 of `year`
in the proleptic Gregorian calendar. -/
def daysBeforeYear (year : Nat) : Nat :=
  365 * (year - 1) + (year - 1) / 4 - (year - 1) / 100 + (year - 1) / 400

/-- Python `datetime._days_before_month`: days in `year` preceding the
first of `month` (cumulative-month table plus the leap-day adjustment). -/
def daysBeforeMonth (y m : Nat) : Nat :=
  (match m with
   | 1 => 0 | 2 => 31 | 3 => 59 | 4 => 90 | 5 => 120 | 6 => 151
   | 7 => 181 | 8 => 212 | 9 => 243 | 10 => 273 | 11 => 304 | 12 => 334
   | _ => 0)
  + (if 2 < m ∧ isLeap y then 1 else 0)

/-- Python `datetime._ymd2ord`: the proleptic-Gregorian ordinal of the
date (day 1 is 0001-01-01). -/
def toOrdinal (t : DateTime) : Nat :=
  daysBeforeYear t.year + daysBeforeMonth t.year t.month + t.day

/-- The instant a `DateTime` denotes, in microseconds since the start of
0001-01-01 UTC.  This is the interpretation of a naive UTC datetime as a
point on the time line. -/
def toInstant (t : DateTime) : Nat :=
  ((toOrdinal t - 1) * 86400 + t.hour * 3600 + t.minute * 60 + t.second) * 1000000
    + t.microsecond

/-- The invariant CPython maintains on `datetime` fields (the year cap of
9999 is tracked separately where the rendering width depends on it). -/
def Valid (t : DateTime) : Prop :=
  1 ≤ t.year ∧ 1 ≤ t.month ∧ t.month ≤ 12 ∧ 1 ≤ t.day ∧
    t.day ≤ daysInMonth t.year t.month ∧ t.hour ≤ 23 ∧ t.minute ≤ 59 ∧
    t.second ≤ 59 ∧ t.microsecond ≤ 999999

instance (t : DateTime) : Decidable (Valid t) := by
  unfold Valid
  exact inferInstance

/-- The effect of `datetime + timedelta(minutes=2)` (line 16 of the
source) on a valid datetime: Python normalizes through the ordinal, and
adding 120 seconds to a valid datetime is exactly this field carry. -/
def addTwoMinutes (t : DateTime) : DateTime :=
  if t.minute + 2 ≤ 59 then
    { t with minute := t.minute + 2 }
  else if t.hour ≤ 22 then
    { t with hour := t.hour + 1, minute := t.minute + 2 - 60 }
  else if t.day < daysInMonth t.year t.month then
    { t with day := t.day + 1, hour := 0, minute := t.minute + 2 - 60 }
  else if t.month ≤ 11 then
    { t with month := t.month + 1, day := 1, hour := 0, minute := t.minute + 2 - 60 }
  else
    { year := t.year + 1, month := 1, day := 1, hour := 0,
      minute := t.minute + 2 - 60, second := t.second, microsecond := t.microsecond }

/-- The instant carried by the `noticeTime` of a response computed at
clock reading `t`. -/
def noticeInstant (t : DateTime) : Nat := toInstant (addTwoMinutes t)

/-- One decimal digit, as printed by CPython's `%d` formatting. -/
def digitChar (n : Nat) : Char :=
  if n = 0 then '0' else if n = 1 then '1' else if n = 2 then '2'
  else if n = 3 then '3' else if n = 4 then '4' else if n = 5 then '5'
  else if n = 6 then '6' else if n = 7 then '7' else if n = 8 then '8' else '9'

/-- `%02d` on `n ≤ 99`. -/
def twoDigits (n : Nat) : List Char :=
  [digitChar (n / 10), digitChar (n % 10)]

/-- `%04d` on `n ≤ 9999`. -/
def fourDigits (n : Nat) : List Char :=
  [digitChar (n / 1000), digitChar (n / 100 % 10), digitChar (n / 10 % 10),
   digitChar (n % 10)]

/-- `%06d` on `n ≤ 999999`. -/
def sixDigits (n : Nat) : List Char :=
  [digitChar (n / 100000), digitChar (n / 10000 % 10), digitChar (n / 1000 % 10),
   digitChar (n / 100 % 10), digitChar (n / 10 % 10), digitChar (n % 10)]

/-- The characters of `datetime.isoformat()`: date, `T`, time, and the
`.ffffff` microsecond field only when `microsecond` is nonzero. -/
def isoChars (t : DateTime) : List Char :=
  fourDigits t.year ++ '-' :: twoDigits t.month ++ '-' :: twoDigits t.day ++
    'T' :: twoDigits t.hour ++ ':' :: twoDigits t.minute ++ ':' :: twoDigits t.second ++
    (if t.microsecond = 0 then [] else '.' :: sixDigits t.microsecond)

/-- Python `datetime.isoformat()`. -/
def DateTime.isoformat (t : DateTime) : String := String.mk (isoChars t)

/-- Line 16 of the source:
`(datetime.utcnow() + timedelta(minutes=2)).isoformat() + 'Z'`,
where `t` is the value `datetime.utcnow()` returned. -/
def noticeTimeStr (t : DateTime) : String :=
  (addTwoMinutes t).isoformat ++ "Z"

/-- A lowercase hexadecimal digit, for `\uXXXX` escapes. -/
def hexDigitChar (n : Nat) : Char :=
  if n < 10 then digitChar n
  else if n = 10 then 'a' else if n = 11 then 'b' else if n = 12 then 'c'
  else if n = 13 then 'd' else if n = 14 then 'e' else 'f'

/-- `json.dumps` escaping of one character (default `ensure_ascii=True`:
quote, backslash, the short control escapes, and `\uXXXX` for everything
outside printable ASCII; modelled on the Basic Multilingual Plane). -/
def jsonEscapeChar (c : Char) : String :=
  if c = '"' then "\\\""
  else if c = '\\' then "\\\\"
  else if c.toNat = 8 then "\\b"
  else if c.toNat = 9 then "\\t"
  else if c.toNat = 10 then "\\n"
  else if c.toNat = 12 then "\\f"
  else if c.toNat = 13 then "\\r"
  else if c.toNat < 32 ∨ 126 < c.toNat then
    "\\u" ++ String.mk [hexDigitChar (c.toNat / 4096 % 16), hexDigitChar (c.toNat / 256 % 16),
                        hexDigitChar (c.toNat / 16 % 16), hexDigitChar (c.toNat % 16)]
  else String.mk [c]

/-- `json.dumps` escaping of a string's contents. -/
def jsonEscape (s : String) : String :=
  String.join (s.data.map jsonEscapeChar)

/-- The JSON values the program builds: strings and objects (a Python
`dict` with string keys, in insertion order, as `json.dumps` serializes
it). -/
inductive Json where
  | str : String → Json
  | obj : List (String × Json) → Json

mutual

/-- `json.dumps` with its default separators `(", ", ": ")`. -/
def Json.dumps : Json → String
  | .str s => "\"" ++ jsonEscape s ++ "\""
  | .obj fields => "\x7b" ++ Json.dumpsFields fields ++ "\x7d"

/-- The comma-joined `"key": value` members of an object. -/
def Json.dumpsFields : List (String × Json) → String
  | [] => ""
  | [(k, v)] => "\"" ++ jsonEscape k ++ "\": " ++ Json.dumps v
  | (k, v) :: p :: rest =>
      "\"" ++ jsonEscape k ++ "\": " ++ Json.dumps v ++ ", " ++
        Json.dumpsFields (p :: rest)

end

/-- The one recognized request path (line 14 of the source). -/
def recognizedPath : String := "/latest/meta-data/rebalance-recommendation"

/-- An incoming HTTP request as `BaseHTTPRequestHandler` presents it.
`target` is `self.path`: the request target from the request line,
verbatim, including any query string. -/
structure Request where
  httpMethod : String
  target : String
  headers : List (String × String)
  body : String
  deriving DecidableEq

/-- What one invocation of the handler sends back: the status line's
code, the explicitly sent headers in order, the body bytes, and the
access-log lines the handler emits while answering. -/
structure Response where
  status : Nat
  headers : List (String × String)
  body : String
  accessLog : List String
  deriving DecidableEq

/-- `MockIMDSHandler.log_message` (lines 31-33): overridden to `pass`, so
every access-log call produces no output. -/
def log_message (_fmt : String) (_args : List String) : List String := []

/-- The payload built on the recognized path (lines 18-20):
`response = {"noticeTime": notice_time}`. -/
def rebalancePayload (t : DateTime) : Json :=
  .obj [("noticeTime", .str (noticeTimeStr t))]

/-- `MockIMDSHandler.do_GET` (lines 13-29) as a pure function of the
request and the clock reading `now` that `datetime.utcnow()` returns
while handling it.  On the recognized path: 200, the
`Content-type: application/json` header, and the dumped payload; on any
other target: 404 with no body.  Each branch logs through the suppressed
`log_message`. -/
def do_GET (r : Request) (now : DateTime) : Response :=
  if r.target = recognizedPath then
    { status := 200,
      headers := [("Content-type", "application/json")],
      body := (rebalancePayload now).dumps,
      accessLog := log_message "%s" [r.target] }
  else
    { status := 404, headers := [], body := "", accessLog := log_message "%s" [r.target] }

/-- ASCII lowercasing of one character. -/
def asciiLower (c : Char) : Char :=
  if 'A' ≤ c ∧ c ≤ 'Z' then Char.ofNat (c.toNat + 32) else c

/-- ASCII lowercasing of a string, for case-insensitive HTTP header-field
names. -/
def lowerStr (s : String) : String := String.mk (s.data.map asciiLower)

/-- Header lookup the way an HTTP peer reads a response: field names
compare case-insensitively. -/
def headerValue (resp : Response) (name : String) : Option String :=
  (resp.headers.find? fun p => lowerStr p.1 == lowerStr name).map Prod.snd

/-- Serving a sequence of requests, each with the clock reading current
as it is handled: every response is computed from its own request and
clock alone (the handler class holds no state shared between requests). -/
def serveSequence (reqs : List (Request × DateTime)) : List Response :=
  reqs.map fun p => do_GET p.1 p.2

/-- The access-log output accumulated over a request sequence. -/
def requestLogs : List (Request × DateTime) → List String
  | [] => []
  | p :: rest => (do_GET p.1 p.2).accessLog ++ requestLogs rest

/-- The three lines the main block prints after binding
(lines 37-39 of the source). -/
def startupLines : List String :=
  ["Mock IMDS server running on http://localhost:8080",
   "Test rebalance recommendation endpoint: http://localhost:8080/latest/meta-data/rebalance-recommendation",
   "Press Ctrl+C to stop"]

/-- Everything a serving run writes to the console: the startup lines,
then whatever each handled request logs. -/
def consoleOutput (reqs : List (Request × DateTime)) : List String :=
  startupLines ++ requestLogs reqs

/-- How the bind in `HTTPServer(('localhost', 8080), MockIMDSHandler)`
can turn out (line 36 of the source). -/
inductive BindOutcome where
  | ok
  | addrInUse
  | permissionDenied
  deriving DecidableEq

/-- The event that ends `serve_forever()` in this program: the operator's
interrupt (`KeyboardInterrupt`). -/
inductive ServeEvent where
  | keyboardInterrupt
  deriving DecidableEq

/-- The observable outcome of one run of the `__main__` block. -/
structure MainResult where
  exitCode : Nat
  shutdownCalled : Bool
  stdoutLines : List String
  errorReported : Bool
  bindAttempts : Nat
  deriving DecidableEq

/-- The `__main__` block (lines 35-43).  A failed bind raises out of line
36 before anything is printed: the exception is uncaught (the `try` only
guards `serve_forever` and only for `KeyboardInterrupt`), so the Python
runtime reports it and exits with status 1; the bind is attempted once.
On a successful bind the startup lines are printed, serving blocks, and a
`KeyboardInterrupt` is caught: `server.shutdown()` runs and the script
falls off its end, exiting with status 0. -/
def mainRun (b : BindOutcome) (e : ServeEvent) : MainResult :=
  match b with
  | .ok =>
      match e with
      | .keyboardInterrupt =>
          { exitCode := 0, shutdownCalled := true, stdoutLines := startupLines,
            errorReported := false, bindAttempts := 1 }
  | _ =>
      { exitCode := 1, shutdownCalled := false, stdoutLines := [],
        errorReported := true, bindAttempts := 1 }

/-- Is this character a decimal digit? -/
def isDigitCh (c : Char) : Bool := '0' ≤ c && c ≤ '9'

/-- Does a character list have the shape `YYYY-MM-DDTHH:MM:SS.ffffffZ`
(six-digit fraction present)? -/
def fullFormatChars : List Char → Bool
  | [y1, y2, y3, y4, '-', o1, o2, '-', d1, d2, 'T', h1, h2, ':', i1, i2, ':',
     s1, s2, '.', u1, u2, u3, u4, u5, u6, 'Z'] =>
      [y1, y2, y3, y4, o1, o2, d1, d2, h1, h2, i1, i2,
       s1, s2, u1, u2, u3, u4, u5, u6].all isDigitCh
  | _ => false

/-- Does a character list have the shape `YYYY-MM-DDTHH:MM:SSZ`
(no fractional field)? -/
def shortFormatChars : List Char → Bool
  | [y1, y2, y3, y4, '-', o1, o2, '-', d1, d2, 'T', h1, h2, ':', i1, i2, ':',
     s1, s2, 'Z'] =>
      [y1, y2, y3, y4, o1, o2, d1, d2, h1, h2, i1, i2, s1, s2].all isDigitCh
  | _ => false

/-- String form of `fullFormatChars`. -/
def hasFullFormat (s : String) : Bool := fullFormatChars s.data

/-- String form of `shortFormatChars`. -/
def hasShortFormat (s : String) : Bool := shortFormatChars s.data

/-- A sample GET request to the recognized path. -/
def sampleRequest : Request :=
  { httpMethod := "GET", target := recognizedPath, headers := [], body := "" }

/-- A concrete clock reading with zero microseconds. -/
def dtJan2024 : DateTime :=
  { year := 2024, month := 1, day := 1, hour := 0, minute := 0, second := 0,
    microsecond := 0 }

/-- A concrete clock reading one second after `dtJan2024`. -/
def dtJan2024s : DateTime :=
  { year := 2024, month := 1, day := 1, hour := 0, minute := 0, second := 1,
    microsecond := 0 }

/-- A concrete clock reading with nonzero microseconds. -/
def dtMar2024 : DateTime :=
  { year := 2024, month := 3, day := 15, hour := 10, minute := 20, second := 30,
    microsecond := 123456 }

set_option maxHeartbeats 1000000 in
theorem daysBeforeYear_succ (y : Nat) (hy : 1 ≤ y) :
    daysBeforeYear (y + 1) = daysBeforeYear y + 365 + (if isLeap y then 1 else 0) := by
  rw [daysBeforeYear, daysBeforeYear]
  by_cases h : isLeap y
  · rw [if_pos h]
    rw [isLeap] at h
    omega
  · rw [if_neg h]
    rw [isLeap] at h
    omega

theorem daysBeforeMonth_succ (y m : Nat) (h1 : 1 ≤ m) (h2 : m ≤ 11) :
    daysBeforeMonth y (m + 1) = daysBeforeMonth y m + daysInMonth y m := by
  by_cases hL : isLeap y <;>
    (interval_cases m <;> simp [daysBeforeMonth, daysInMonth, hL])

set_option maxHeartbeats 1000000 in
/-- Adding the two-minute offset advances the denoted instant by exactly
120 seconds (120000000 microseconds). -/
theorem toInstant_addTwoMinutes (t : DateTime) (h : Valid t) :
    toInstant (addTwoMinutes t) = toInstant t + 120000000 := by
  obtain ⟨yr, mo, dy, hr, mi, sc, us⟩ := t
  obtain ⟨hy, hm1, hm2, hd1, hd2, hh, hmin, hsec, hmic⟩ := h
  dsimp only at hy hm1 hm2 hd1 hd2 hh hmin hsec hmic
  rw [addTwoMinutes]
  dsimp only
  split
  · rw [toInstant, toInstant, toOrdinal, toOrdinal]
    dsimp only
    omega
  · split
    · rw [toInstant, toInstant, toOrdinal, toOrdinal]
      dsimp only
      omega
    · split
      · rw [toInstant, toInstant, toOrdinal, toOrdinal]
        dsimp only
        omega
      · split
        · rename_i hc1 hc2 hc3 hc4
          have hB := daysBeforeMonth_succ yr mo hm1 hc4
          rw [toInstant, toInstant, toOrdinal, toOrdinal]
          dsimp only
          omega
        · rename_i hc1 hc2 hc3 hc4
          have h12 : mo = 12 := by omega
          subst h12
          have hByr := daysBeforeYear_succ yr hy
          rw [toInstant, toInstant, toOrdinal, toOrdinal]
          dsimp only
          have h31 : daysInMonth yr 12 = 31 := by simp [daysInMonth]
          have hB1 : daysBeforeMonth (yr + 1) 1 = 0 := by simp [daysBeforeMonth]
          by_cases hL : isLeap yr
          · have hB12 : daysBeforeMonth yr 12 = 335 := by
              simp [daysBeforeMonth, hL]
            rw [if_pos hL] at hByr
            omega
          · have hB12 : daysBeforeMonth yr 12 = 334 := by
              simp [daysBeforeMonth, hL]
            rw [if_neg hL] at hByr
            omega

theorem isDigitCh_digitChar (n : Nat) : isDigitCh (digitChar n) = true := by
  rw [digitChar]
  split_ifs <;> rfl

/-- The header list the 200 branch sends contains the JSON content type
under the case-insensitive name `Content-Type`. -/
theorem contentTypeLookup :
    (List.find? (fun p => lowerStr p.1 == lowerStr "Content-Type")
        [("Content-type", "application/json")])
      = some ("Content-type", "application/json") := by decide

/-- Claim C1: every GET request whose target is exactly
`/latest/meta-data/rebalance-recommendation` is answered with status 200,
a `Content-Type` header (HTTP field names are case-insensitive; the code
sends it spelled `Content-type`) equal to `application/json`, and a body
that is the serialization of a JSON object with exactly one key
`noticeTime` whose value is a string. -/
theorem c1_recognized_path_response (r : Request) (t : DateTime)
    (hr : r.target = recognizedPath) :
    (do_GET r t).status = 200 ∧
      headerValue (do_GET r t) "Content-Type" = some "application/json" ∧
      ∃ s, (do_GET r t).body = (Json.obj [("noticeTime", Json.str s)]).dumps := by
  rw [do_GET, if_pos hr]
  refine ⟨rfl, ?_, ⟨noticeTimeStr t, rfl⟩⟩
  rw [headerValue]
  dsimp only
  rw [contentTypeLookup]
  rfl

/-- Witness for C1 at a concrete request and clock reading. -/
theorem c1_recognized_path_witness :
    sampleRequest.target = recognizedPath ∧
      (do_GET sampleRequest dtJan2024).status = 200 ∧
      headerValue (do_GET sampleRequest dtJan2024) "Content-Type"
        = some "application/json" := by
  refine ⟨rfl, ?_, ?_⟩
  · exact (c1_recognized_path_response sampleRequest dtJan2024 rfl).1
  · exact (c1_recognized_path_response sampleRequest dtJan2024 rfl).2.1

/-- Claim C2: on the recognized path the response body embeds the
ISO-rendering of `now + 2 minutes`, and that notice instant is strictly
after the handling instant, exceeding it by exactly 120 seconds
(120000000 microseconds), well within the spec's one-second tolerance. -/
theorem c2_notice_time_offset (r : Request) (t : DateTime)
    (hr : r.target = recognizedPath) (hv : Valid t) :
    (do_GET r t).body
        = (Json.obj [("noticeTime",
            Json.str ((addTwoMinutes t).isoformat ++ "Z"))]).dumps ∧
      toInstant t < noticeInstant t ∧
      noticeInstant t = toInstant t + 120000000 := by
  have h2 := toInstant_addTwoMinutes t hv
  refine ⟨?_, ?_, ?_⟩
  · simp [do_GET, hr, rebalancePayload, noticeTimeStr]
  · rw [noticeInstant, h2]
    omega
  · rw [noticeInstant, h2]

/-- Witness for C2 at a concrete request and clock reading. -/
theorem c2_notice_time_offset_witness :
    Valid dtJan2024 ∧ noticeInstant dtJan2024 = toInstant dtJan2024 + 120000000 :=
  ⟨by decide, (c2_notice_time_offset sampleRequest dtJan2024 rfl (by decide)).2.2⟩

/-- Claim C3: any GET request whose target differs from the recognized
path (string equality: exact, case-sensitive, no trailing-slash
normalization) is answered 404 with an empty body and no log output; the
handler is total on such requests, so the case never escapes as a
process-level error. -/
theorem c3_unrouted_path (r : Request) (t : DateTime)
    (hr : r.target ≠ recognizedPath) :
    do_GET r t = { status := 404, headers := [], body := "", accessLog := [] } := by
  simp [do_GET, hr, log_message]

/-- Witness for C3: the trailing-slash variant of the recognized path is
not recognized. -/
theorem c3_unrouted_path_witness :
    do_GET { httpMethod := "GET",
             target := "/latest/meta-data/rebalance-recommendation/",
             headers := [], body := "" } dtJan2024
      = { status := 404, headers := [], body := "", accessLog := [] } :=
  c3_unrouted_path _ dtJan2024 (by decide)

/-- Claim C5: a request target consisting of the recognized path followed
by `?` and any query string is compared whole against the recognized path
(`self.path` keeps the query string), so it falls to the 404 branch. -/
theorem c5_query_string_unrouted (q hm hb : String) (hs : List (String × String))
    (t : DateTime) :
    do_GET { httpMethod := hm, target := recognizedPath ++ "?" ++ q,
             headers := hs, body := hb } t
      = { status := 404, headers := [], body := "", accessLog := [] } := by
  have hne : recognizedPath ++ "?" ++ q ≠ recognizedPath := by
    intro h
    have hlen := congrArg String.length h
    rw [String.length_append, String.length_append] at hlen
    have hq : ("?" : String).length = 1 := rfl
    omega
  simp [do_GET, hne, log_message]

/-- Counterexample to claim C4 as stated: at the valid clock reading
2024-01-01 00:00:00.000000 the serialized `noticeTime` is
`2024-01-01T00:02:00Z` — no six-digit fractional-seconds field — because
`isoformat()` omits the fraction when the microsecond component is zero. -/
theorem c4_counterexample :
    Valid dtJan2024 ∧ noticeTimeStr dtJan2024 = "2024-01-01T00:02:00Z" ∧
      hasFullFormat (noticeTimeStr dtJan2024) = false :=
  ⟨by decide, by decide, by decide⟩

/-- Claim C4 (amended): the serialized `noticeTime` has the shape
`YYYY-MM-DDTHH:MM:SS.ffffffZ` exactly when the notice's microsecond
component is nonzero, and the shape `YYYY-MM-DDTHH:MM:SSZ` (fraction
omitted) when it is zero. -/
theorem c4_fraction_format (t : DateTime) (_hv : Valid t)
    (_hy : (addTwoMinutes t).year ≤ 9999) :
    ((addTwoMinutes t).microsecond ≠ 0 → hasFullFormat (noticeTimeStr t) = true) ∧
      ((addTwoMinutes t).microsecond = 0 → hasShortFormat (noticeTimeStr t) = true) := by
  rw [noticeTimeStr]
  generalize addTwoMinutes t = u
  have hdata : (u.isoformat ++ "Z").data = isoChars u ++ ['Z'] := rfl
  constructor
  · intro hu
    rw [hasFullFormat, hdata, isoChars, if_neg hu]
    rw [fourDigits, twoDigits, twoDigits, twoDigits, twoDigits, twoDigits, sixDigits]
    simp [fullFormatChars, isDigitCh_digitChar]
  · intro hu
    rw [hasShortFormat, hdata, isoChars, if_pos hu]
    rw [fourDigits, twoDigits, twoDigits, twoDigits, twoDigits, twoDigits]
    simp [shortFormatChars, isDigitCh_digitChar]

/-- Witness for the amended C4 at a clock reading with nonzero
microseconds. -/
theorem c4_fraction_format_witness :
    Valid dtMar2024 ∧ (addTwoMinutes dtMar2024).microsecond ≠ 0 ∧
      hasFullFormat (noticeTimeStr dtMar2024) = true :=
  ⟨by decide, by decide,
    (c4_fraction_format dtMar2024 (by decide) (by decide)).1 (by decide)⟩

/-- Counterexample to claim C6 as stated: two successive requests at the
same (hence non-decreasing) clock reading carry the same `noticeTime`
value, so the responses are not always different. -/
theorem c6_counterexample :
    ¬ (∀ t1 t2 : DateTime, Valid t1 → Valid t2 → toInstant t1 ≤ toInstant t2 →
        noticeTimeStr t1 ≠ noticeTimeStr t2) := fun hAll =>
  hAll dtJan2024 dtJan2024 (by decide) (by decide) (Nat.le_refl _) rfl

/-- Claim C6 (amended): each response in a served sequence is computed
from its own request and clock reading alone (no shared state, no
caching), and the notice instants are non-decreasing with the clock,
strictly increasing — hence distinct — exactly when the clock readings'
instants differ. -/
theorem c6_fresh_monotone (t1 t2 : DateTime) (h1 : Valid t1) (h2 : Valid t2)
    (hle : toInstant t1 ≤ toInstant t2) :
    (∀ r1 r2 : Request,
        serveSequence [(r1, t1), (r2, t2)] = [do_GET r1 t1, do_GET r2 t2]) ∧
      noticeInstant t1 ≤ noticeInstant t2 ∧
      (toInstant t1 < toInstant t2 → noticeInstant t1 < noticeInstant t2) ∧
      (toInstant t1 ≠ toInstant t2 → noticeInstant t1 ≠ noticeInstant t2) := by
  have e1 := toInstant_addTwoMinutes t1 h1
  have e2 := toInstant_addTwoMinutes t2 h2
  refine ⟨fun r1 r2 => rfl, ?_, ?_, ?_⟩ <;>
    rw [noticeInstant, noticeInstant, e1, e2] <;> omega

/-- Witness for the amended C6 at two concrete clock readings one second
apart. -/
theorem c6_fresh_monotone_witness :
    Valid dtJan2024 ∧ Valid dtJan2024s ∧
      toInstant dtJan2024 < toInstant dtJan2024s ∧
      noticeInstant dtJan2024 < noticeInstant dtJan2024s :=
  ⟨by decide, by decide, by decide,
    (c6_fresh_monotone dtJan2024 dtJan2024s (by decide) (by decide)
        (by decide)).2.2.1 (by decide)⟩

/-- Claim C7: a `KeyboardInterrupt` during serving is caught, the
listener is shut down, and the process exits with status 0, reporting no
error. -/
theorem c7_interrupt_clean_exit :
    (mainRun BindOutcome.ok ServeEvent.keyboardInterrupt).exitCode = 0 ∧
      (mainRun BindOutcome.ok ServeEvent.keyboardInterrupt).shutdownCalled = true ∧
      (mainRun BindOutcome.ok ServeEvent.keyboardInterrupt).errorReported = false :=
  ⟨rfl, rfl, rfl⟩

/-- Claim C8: a failed bind (address in use or permission denied) is
fatal — the process exits nonzero with an error report, after a single
bind attempt and before any startup output. -/
theorem c8_bind_failure_fatal (b : BindOutcome) (e : ServeEvent)
    (hb : b ≠ BindOutcome.ok) :
    (mainRun b e).exitCode ≠ 0 ∧ (mainRun b e).errorReported = true ∧
      (mainRun b e).bindAttempts = 1 ∧ (mainRun b e).stdoutLines = [] := by
  cases b
  · exact absurd rfl hb
  · exact ⟨one_ne_zero, rfl, rfl, rfl⟩
  · exact ⟨one_ne_zero, rfl, rfl, rfl⟩

/-- Witness for C8 on an address-in-use bind failure. -/
theorem c8_bind_failure_witness :
    (mainRun BindOutcome.addrInUse ServeEvent.keyboardInterrupt).exitCode ≠ 0 ∧
      (mainRun BindOutcome.addrInUse ServeEvent.keyboardInterrupt).errorReported
        = true := by
  have h := c8_bind_failure_fatal BindOutcome.addrInUse ServeEvent.keyboardInterrupt
    (by decide)
  exact ⟨h.1, h.2.1⟩

/-- Claim C9: no request, on any path, produces any access-log or console
output — `log_message` is a no-op — so the console output of a serving
run is exactly the three fixed startup lines. -/
theorem c9_logging_suppressed :
    (∀ (r : Request) (t : DateTime), (do_GET r t).accessLog = []) ∧
      (∀ reqs : List (Request × DateTime), consoleOutput reqs = startupLines) ∧
      (mainRun BindOutcome.ok ServeEvent.keyboardInterrupt).stdoutLines
        = startupLines := by
  have hlog : ∀ (r : Request) (t : DateTime), (do_GET r t).accessLog = [] := by
    intro r t
    rw [do_GET]
    split <;> rfl
  have hreq : ∀ reqs : List (Request × DateTime), requestLogs reqs = [] := by
    intro reqs
    induction reqs with
    | nil => rfl
    | cons p rest ih => simp [requestLogs, hlog, ih]
  refine ⟨hlog, fun reqs => ?_, rfl⟩
  rw [consoleOutput, hreq, List.append_nil]

/-- Claim C10: the response is a deterministic function of the request
target and the clock reading — two handler invocations with equal targets
and equal clock readings produce identical status, headers, body, and log,
whatever else (method, headers, body) differs between the requests. -/
theorem c10_deterministic (r1 r2 : Request) (t1 t2 : DateTime)
    (hr : r1.target = r2.target) (ht : t1 = t2) :
    do_GET r1 t1 = do_GET r2 t2 := by
  subst ht
  rw [do_GET, do_GET, hr]

/-- Witness for C10: two requests differing in method, headers, and body
but sharing the target get byte-identical responses. -/
theorem c10_deterministic_witness :
    do_GET { httpMethod := "GET", target := recognizedPath,
             headers := [("Accept", "application/json")], body := "" } dtJan2024
      = do_GET { httpMethod := "GET", target := recognizedPath,
                 headers := [], body := "ignored" } dtJan2024 :=
  c10_deterministic _ _ _ _ rfl rfl

end MockIMDS
